import Mathlib

/-!
Verification of the `cloudconformity-scanner` core
(`cloudconformity_scanner/scanner.py` and the report/exit logic of
`cloudconformity_scanner/cli.py`).

Python strings are modelled as `List Char`; `str.split(sep)` (single
character separator), `str.startswith`, list indexing `[1]`, `[0]`,
`[-1]`, dictionary access with `KeyError`, ruamel `.lc.line` access and
the `assert` statement are modelled explicitly below.
-/

namespace CCScanner

/-- A Python string, modelled as its list of characters. -/
abbrev Str := List Char

/-- Model of Python `s.split(sep)` for a one-character separator `sep`:
`"".split(s) = [""]`, and every occurrence of the separator produces a cut,
adjacent separators producing empty fields. -/
def pySplit (sep : Char) : Str → List Str
  | [] => [[]]
  | c :: cs =>
    if c = sep then [] :: pySplit sep cs
    else
      match pySplit sep cs with
      | [] => [[c]]
      | t :: ts => (c :: t) :: ts

/-- Model of Python `s.startswith(p)` (first argument the string, second the
prefix, as in `resource.startswith('arn:...')`). -/
def startsWith : Str → Str → Bool
  | _, [] => true
  | [], _ :: _ => false
  | c :: cs, p :: ps => c = p && startsWith cs ps

/-- The characters of `s` strictly before the first occurrence of `sep`
(all of `s` when `sep` does not occur). -/
def takeUntil (sep : Char) : Str → Str
  | [] => []
  | c :: cs => if c = sep then [] else c :: takeUntil sep cs

/-- Python `l[1]` on the result of a split (the guard of the CloudTrail
branch guarantees at least two fields, so the default is never used there). -/
def pyIdx1 (l : List Str) : Str := l.getD 1 []

/-- Python `l[0]` on the result of a split (a split is never empty). -/
def pyIdx0 (l : List Str) : Str := l.getD 0 []

/-- Python `l[-1]` on the result of a split (a split is never empty). -/
def pyLast : List Str → Str
  | [] => []
  | [x] => x
  | _ :: x :: xs => pyLast (x :: xs)

/-- The CloudTrail ARN prefix tested by `TemplateScanner._fix`. -/
def ctPrefix : Str := "arn:aws:cloudtrail:us-east-1:123456789012:trail/".toList

/-- `ctPrefix` without its final slash. -/
def ctStem : Str := "arn:aws:cloudtrail:us-east-1:123456789012:trail".toList

/-- The SNS ARN prefix tested by `TemplateScanner._fix` (note: the source
tests this prefix without a trailing colon). -/
def snsPrefix : Str := "arn:aws:sns:us-east-1:123456789012".toList

/-- The SNS prefix with the colon that separates it from the topic name. -/
def snsPrefixColon : Str := "arn:aws:sns:us-east-1:123456789012:".toList

/-- Model of `TemplateScanner._fix` (scanner.py lines 114-122):
```
if resource.startswith('arn:aws:cloudtrail:us-east-1:123456789012:trail/'):
    return resource.split('/')[1].split('-')[0]
if resource.startswith('arn:aws:sns:us-east-1:123456789012'):
    return resource.split(':')[-1]
return resource
``` -/
def fix (resource : Str) : Str :=
  if startsWith resource ctPrefix then
    pyIdx0 (pySplit '-' (pyIdx1 (pySplit '/' resource)))
  else if startsWith resource snsPrefix then
    pyLast (pySplit ':' resource)
  else
    resource

/-! ### The spec-side reading of the two ARN patterns (for comparison with
the behaviour of `fix`, which is translated from the source) -/

/-- Spec-side: an identifier matches the CloudTrail pattern
`arn:aws:cloudtrail:us-east-1:123456789012:trail/NAME-suffix` when it starts
with the CloudTrail prefix and a `'-'` occurs after the prefix's slash. -/
def ctPatternMatches (r : Str) : Prop :=
  startsWith r ctPrefix = true ∧ '-' ∈ r.drop ctPrefix.length

/-- Spec-side: `NAME` of the CloudTrail pattern, "the substring between the
`'/'` and the first `'-'`". -/
def specCtName (r : Str) : Str := takeUntil '-' (r.drop ctPrefix.length)

/-- Spec-side: an identifier matches the SNS pattern
`arn:aws:sns:us-east-1:123456789012:NAME`. -/
def snsPatternMatches (r : Str) : Prop := startsWith r snsPrefixColon = true

instance : DecidablePred ctPatternMatches := fun r => by
  unfold ctPatternMatches
  infer_instance

instance : DecidablePred snsPatternMatches := fun r => by
  unfold snsPatternMatches
  infer_instance

/-- A CloudTrail ARN whose `NAME` segment (everything between the prefix's
slash and the first dash) itself contains a slash. -/
def ctSlashId : Str := "arn:aws:cloudtrail:us-east-1:123456789012:trail/a/b-c".toList

/-- An identifier with the CloudTrail prefix but no dash after the slash:
it matches neither spec pattern, yet `fix` still rewrites it. -/
def ctNoDashId : Str := "arn:aws:cloudtrail:us-east-1:123456789012:trail/MyTrail".toList

/-! ### Model of the parsed YAML source document and of `_line_number` -/

/-- A node of the parsed template as ruamel.yaml represents it: plain
scalars (strings, numbers, null, booleans) carry no `.lc` position
attribute and are not subscriptable by a string; `CommentedSeq` and
`CommentedMap` carry a (0-based) declaration line in `.lc.line`. -/
inductive Node where
  | scalar : Node
  | seq : Nat → Node
  | map : Nat → List (Str × Node) → Node

/-- The Python exceptions that `_line_number` can raise uncaught (its
`except KeyError` only catches missing dictionary keys). -/
inductive PyError where
  | typeError : PyError
  | attributeError : PyError
deriving DecidableEq

/-- Python dictionary lookup, `KeyError` rendered as `none`. -/
def lookup {α : Type} : List (Str × α) → Str → Option α
  | [], _ => none
  | (k, v) :: rest, key => if k = key then some v else lookup rest key

/-- The `'Resources'` key. -/
def resourcesKey : Str := "Resources".toList

/-- Model of `TemplateScanner._line_number` (scanner.py lines 106-112):
`return source['Resources'][resource].lc.line` with only `KeyError`
caught (returning `None`).  Subscripting a scalar or a sequence raises
`TypeError`, and `.lc` on a plain scalar raises `AttributeError`; neither
is caught. -/
def lineNumber (resource : Str) (source : Node) : Except PyError (Option Nat) :=
  match source with
  | .scalar => .error .typeError
  | .seq _ => .error .typeError
  | .map _ entries =>
    match lookup entries resourcesKey with
    | none => .ok none
    | some .scalar => .error .typeError
    | some (.seq _) => .error .typeError
    | some (.map _ resourceEntries) =>
      match lookup resourceEntries resource with
      | none => .ok none
      | some .scalar => .error .attributeError
      | some (.seq line) => .ok (some line)
      | some (.map line _) => .ok (some line)

/-! ### Model of one API result item and of the `Finding` dataclass -/

/-- The fields of `item['attributes']` that `scan_template` reads. -/
structure ItemAttributes where
  resource : Str
  status : Str
  riskLevel : Str
  prettyRiskLevel : Str
  message : Str
  ruleTitle : Str
deriving DecidableEq

/-- One element of `response.json()['data']`; `ruleId` is
`item['relationships']['rule']['data']['id']`. -/
structure Item where
  id : Str
  attributes : ItemAttributes
  ruleId : Str
deriving DecidableEq

/-- The `Finding` dataclass of scanner.py. -/
structure Finding where
  id : Str
  status : Str
  risk_level : Str
  pretty_risk_level : Str
  message : Str
  resource : Str
  rule_id : Str
  rule_title : Str
  line_number : Option Nat
deriving DecidableEq

/-- The status string of a passing check. -/
def SUCCESS : Str := "SUCCESS".toList

/-- The `Finding(...)` constructor call of scanner.py lines 56-66: the raw
resource is normalized with `_fix` and the line number is attached. -/
def mkFinding (item : Item) (ln : Option Nat) : Finding :=
  { id := item.id
    status := item.attributes.status
    risk_level := item.attributes.riskLevel
    pretty_risk_level := item.attributes.prettyRiskLevel
    message := item.attributes.message
    resource := fix item.attributes.resource
    rule_id := item.ruleId
    rule_title := item.attributes.ruleTitle
    line_number := ln }

/-- Model of the response loop of `scan_template` (scanner.py lines 54-73):
for each item the finding is built (computing `_line_number`, which may
raise, ending the generator after the findings already yielded), findings
with status `SUCCESS`, an excluded risk level or an excluded rule id are
skipped, every other finding is yielded.  Returns the yielded findings in
order together with the uncaught exception, if one was raised. -/
def scanItems (excludeLevels excludeRules : List Str) (source : Node) :
    List Item → List Finding × Option PyError
  | [] => ([], none)
  | item :: rest =>
    match lineNumber (fix item.attributes.resource) source with
    | .error e => ([], some e)
    | .ok ln =>
      if (mkFinding item ln).status = SUCCESS then
        scanItems excludeLevels excludeRules source rest
      else if (mkFinding item ln).risk_level ∈ excludeLevels then
        scanItems excludeLevels excludeRules source rest
      else if (mkFinding item ln).rule_id ∈ excludeRules then
        scanItems excludeLevels excludeRules source rest
      else
        (mkFinding item ln :: (scanItems excludeLevels excludeRules source rest).1,
          (scanItems excludeLevels excludeRules source rest).2)

/-! ### Model of the request body built by `_data` -/

/-- The fragment of JSON needed for the request body. -/
inductive Json where
  | str : Str → Json
  | obj : List (Str × Json) → Json

def dataKey : Str := "data".toList
def attributesKey : Str := "attributes".toList
def typeKey : Str := "type".toList
def contentsKey : Str := "contents".toList
def accountIdKey : Str := "accountId".toList
def profileIdKey : Str := "profileId".toList
def cloudformationTemplate : Str := "cloudformation-template".toList

/-- Model of `TemplateScanner._data` (scanner.py lines 86-104): asserts
that not both of `account_id` and `profile_id` are set (an
`AssertionError`, modelled as `.error ()`), then builds the fixed
envelope, appending `accountId` and then `profileId` only when present. -/
def dataBody (contents : Str) (accountId profileId : Option Str) : Except Unit Json :=
  if accountId = none ∨ profileId = none then
    .ok (.obj [(dataKey, .obj [(attributesKey, .obj (
      [(typeKey, .str cloudformationTemplate), (contentsKey, .str contents)]
      ++ (match accountId with | some a => [(accountIdKey, .str a)] | none => [])
      ++ (match profileId with | some p => [(profileIdKey, .str p)] | none => [])))])])
  else
    .error ()

/-! ### Model of `scan_template` -/

/-- The ways the body of `scan_template` can fail. -/
inductive ScanError where
  | yamlError : ScanError
  | assertionError : ScanError
  | pyError : PyError → ScanError
deriving DecidableEq

/-- `account_id = override_account_id if override_account_id is not None
else self.account_id` (scanner.py lines 43-44). -/
def resolveOverride (override selfValue : Option Str) : Option Str :=
  match override with
  | some v => some v
  | none => selfValue

/-- What one execution of the body of `scan_template` did: whether the
HTTP POST was reached, the findings yielded, and the error raised (if
any). -/
structure ScanOutcome where
  posted : Bool
  yielded : List Finding
  error : Option ScanError

/-- Model of `TemplateScanner.scan_template` (scanner.py lines 39-73).
YAML parsing is abstracted as the oracle `parse`, and the network as the
list of result items `responseItems` of a successful response.  The order
of effects follows the source: `yaml.load` first, then the `_data` call
(an argument of `requests.post`, evaluated before any network activity),
then the POST, then the response loop. -/
def scanTemplate (parse : Str → Except Unit Node) (responseItems : List Item)
    (selfAccountId selfProfileId : Option Str)
    (overrideAccountId overrideProfileId : Option Str)
    (excludeLevels excludeRules : List Str) (templateContents : Str) : ScanOutcome :=
  let accountId := resolveOverride overrideAccountId selfAccountId
  let profileId := resolveOverride overrideProfileId selfProfileId
  match parse templateContents with
  | .error _ => ⟨false, [], some .yamlError⟩
  | .ok source =>
    match dataBody templateContents accountId profileId with
    | .error _ => ⟨false, [], some .assertionError⟩
    | .ok _ =>
      let r := scanItems excludeLevels excludeRules source responseItems
      ⟨true, r.1, r.2.map .pyError⟩

/-! ### Model of the report/exit logic of `cli.main` -/

/-- `RISK_LEVELS` of cli.py lines 11-17, in the order they are printed. -/
def RISK_LEVELS : List Str :=
  ["EXTREME".toList, "VERY_HIGH".toList, "HIGH".toList, "MEDIUM".toList, "LOW".toList]

/-- The sort key of cli.py line 83:
`x.line_number if x.line_number is not None else -1`. -/
def lineKey (f : Finding) : Int :=
  match f.line_number with
  | none => -1
  | some n => (n : Int)

/-- Python's stable `sorted(..., key=lineKey)`. -/
def sortFindings (g : List Finding) : List Finding :=
  g.mergeSort (fun a b => decide (lineKey a ≤ lineKey b))

/-- The groups printed by cli.py lines 76-86: the levels are walked in
`RISK_LEVELS` order, empty buckets are skipped, and each printed bucket
holds the findings of that level (in yield order) sorted by `lineKey`. -/
def reportGroups (fs : List Finding) : List (Str × List Finding) :=
  RISK_LEVELS.filterMap fun lvl =>
    if (fs.filter fun f => f.risk_level = lvl).isEmpty then none
    else some (lvl, sortFindings (fs.filter fun f => f.risk_level = lvl))

/-- Model of the reporting half of `cli.main` (cli.py lines 68-90): the
bucketing loop asserts every finding's risk level is a known one
(`AssertionError` modelled as `.error ()`), then the groups are printed
and the process exits 1 when any bucket was non-empty, 0 otherwise. -/
def mainReport (fs : List Finding) : Except Unit (List (Str × List Finding) × Nat) :=
  if ∀ f ∈ fs, f.risk_level ∈ RISK_LEVELS then
    .ok (reportGroups fs, if (reportGroups fs).isEmpty then 0 else 1)
  else
    .error ()

/-! ### Concrete inputs used to exercise the theorems -/

/-- A parsed template with one resource, `MyBucket`, declared at line 5. -/
def demoEntries : List (Str × Node) :=
  [(resourcesKey, Node.map 1 [("MyBucket".toList, Node.map 5 [])])]

/-- The parsed template as a document node. -/
def demoSource : Node := Node.map 0 demoEntries

/-- A failing `HIGH` result item for `MyBucket`. -/
def demoItem : Item :=
  ⟨"item-1".toList,
   ⟨"MyBucket".toList, "FAILURE".toList, "HIGH".toList, "High".toList,
    "msg".toList, "title".toList⟩,
   "S3-001".toList⟩

/-- A failing `LOW` result item for `MyBucket`. -/
def demoLowItem : Item :=
  ⟨"item-2".toList,
   ⟨"MyBucket".toList, "FAILURE".toList, "LOW".toList, "Low".toList,
    "msg2".toList, "title2".toList⟩,
   "S3-002".toList⟩

/-- A failing result item for a resource that is not in the template. -/
def ghostItem : Item :=
  ⟨"item-3".toList,
   ⟨"Ghost".toList, "FAILURE".toList, "HIGH".toList, "High".toList,
    "msg3".toList, "title3".toList⟩,
   "S3-003".toList⟩

/-- A parsed template whose `Resources` section declares `Plain` with a
scalar body (no `.lc` position information on the value). -/
def scalarEntries : List (Str × Node) :=
  [(resourcesKey, Node.map 1 [("Plain".toList, Node.scalar)])]

/-- A finding of risk level `LOW` with no line number. -/
def demoLow : Finding :=
  ⟨"item-4".toList, "FAILURE".toList, "LOW".toList, "Low".toList,
   "msg4".toList, "Res".toList, "S3-004".toList, "title4".toList, none⟩

/-! ### Lemmas -/

/-! ### Basic facts about the split model -/

theorem pySplit_ne_nil (sep : Char) (s : Str) : pySplit sep s ≠ [] := by
  cases s with
  | nil => simp [pySplit]
  | cons c cs =>
    rw [pySplit]
    split
    · simp
    · split
      · simp
      · simp

theorem startsWith_append_self (p t : Str) : startsWith (p ++ t) p = true := by
  induction p with
  | nil => cases t <;> rfl
  | cons c cs ih => simpa [startsWith] using ih

theorem startsWith_cons_ne {c d : Char} (cs ds : Str) (h : c ≠ d) :
    startsWith (c :: cs) (d :: ds) = false := by
  simp [startsWith, h]

theorem startsWith_cons_same (c : Char) (cs ds : Str) :
    startsWith (c :: cs) (c :: ds) = startsWith cs ds := by
  simp [startsWith]

/-- The first field of a split is everything up to the first separator. -/
theorem pyIdx0_pySplit (sep : Char) (s : Str) :
    pyIdx0 (pySplit sep s) = takeUntil sep s := by
  induction s with
  | nil => rfl
  | cons c cs ih =>
    rw [pySplit, takeUntil]
    split
    · rfl
    · cases h : pySplit sep cs with
      | nil => exact absurd h (pySplit_ne_nil sep cs)
      | cons t ts =>
        rw [h] at ih
        simpa [pyIdx0, List.getD] using congrArg (c :: ·) ih

/-- Splitting at the first separator occurrence: if `sep` does not occur in
`xs`, the split of `xs ++ sep :: ys` is `xs` followed by the split of `ys`. -/
theorem pySplit_append_sep {sep : Char} {xs : Str} (ys : Str) (h : sep ∉ xs) :
    pySplit sep (xs ++ sep :: ys) = xs :: pySplit sep ys := by
  induction xs with
  | nil => simp [pySplit]
  | cons c cs ih =>
    have hc : c ≠ sep := fun hcs => h (hcs ▸ List.mem_cons_self c cs)
    have hcs : sep ∉ cs := fun hm => h (List.mem_cons_of_mem c hm)
    rw [List.cons_append, pySplit, if_neg hc, ih hcs]

/-- A separator-free string splits into a single field. -/
theorem pySplit_no_sep {sep : Char} {xs : Str} (h : sep ∉ xs) :
    pySplit sep xs = [xs] := by
  induction xs with
  | nil => rfl
  | cons c cs ih =>
    have hc : c ≠ sep := fun hcs => h (hcs ▸ List.mem_cons_self c cs)
    have hcs : sep ∉ cs := fun hm => h (List.mem_cons_of_mem c hm)
    rw [pySplit, if_neg hc, ih hcs]

theorem takeUntil_append_of_not_mem {sep : Char} {xs : Str} (ys : Str) (h : sep ∉ xs) :
    takeUntil sep (xs ++ ys) = xs ++ takeUntil sep ys := by
  induction xs with
  | nil => rfl
  | cons c cs ih =>
    have hc : c ≠ sep := fun hcs => h (hcs ▸ List.mem_cons_self c cs)
    have hcs : sep ∉ cs := fun hm => h (List.mem_cons_of_mem c hm)
    rw [List.cons_append, takeUntil, if_neg hc, ih hcs, List.cons_append]

theorem two_le_length_pySplit {sep : Char} {s : Str} (h : sep ∈ s) :
    2 ≤ (pySplit sep s).length := by
  induction s with
  | nil => cases h
  | cons c cs ih =>
    rw [pySplit]
    by_cases hc : c = sep
    · rw [if_pos hc]
      have := List.length_pos.mpr (pySplit_ne_nil sep cs)
      simpa using this
    · rw [if_neg hc]
      have hmem : sep ∈ cs := by
        cases h with
        | head => exact absurd rfl hc
        | tail _ hm => exact hm
      cases hsp : pySplit sep cs with
      | nil => exact absurd hsp (pySplit_ne_nil sep cs)
      | cons t ts =>
        have := ih hmem
        rw [hsp] at this
        simpa using this

theorem pyLast_cons_cons (x y : Str) (ys : List Str) :
    pyLast (x :: y :: ys) = pyLast (y :: ys) := rfl

/-- The last field of `xs ++ sep :: ys` is `ys` when `sep` does not occur
in `ys` (this is Python's `split(sep)[-1]`). -/
theorem pyLast_pySplit_append {sep : Char} (xs : Str) {ys : Str} (h : sep ∉ ys) :
    pyLast (pySplit sep (xs ++ sep :: ys)) = ys := by
  induction xs with
  | nil =>
    rw [List.nil_append, pySplit, if_pos rfl, pySplit_no_sep h]
    rfl
  | cons c cs ih =>
    rw [List.cons_append, pySplit]
    by_cases hc : c = sep
    · rw [if_pos hc]
      cases hsp : pySplit sep (cs ++ sep :: ys) with
      | nil => exact absurd hsp (pySplit_ne_nil _ _)
      | cons t ts =>
        rw [pyLast_cons_cons]
        rw [hsp] at ih
        exact ih
    · rw [if_neg hc]
      cases hsp : pySplit sep (cs ++ sep :: ys) with
      | nil => exact absurd hsp (pySplit_ne_nil _ _)
      | cons t ts =>
        have hlen : 2 ≤ (pySplit sep (cs ++ sep :: ys)).length :=
          two_le_length_pySplit (by simp)
        rw [hsp] at hlen
        cases ts with
        | nil => simp at hlen
        | cons u us =>
          rw [pyLast_cons_cons]
          rw [hsp] at ih
          rw [pyLast_cons_cons] at ih
          exact ih

/-! ### Prefix dispatch facts for `fix` -/

theorem startsWith_ct_of_ct_append (t : Str) :
    startsWith (ctPrefix ++ t) ctPrefix = true :=
  startsWith_append_self ctPrefix t

/-- A string that starts with the SNS prefix (colon included) never takes the
CloudTrail branch: the two prefixes differ at their ninth character. -/
theorem not_startsWith_ct_of_sns (t : Str) :
    startsWith (snsPrefixColon ++ t) ctPrefix = false := by
  have h1 : snsPrefixColon ++ t =
      'a' :: 'r' :: 'n' :: ':' :: 'a' :: 'w' :: 's' :: ':' :: 's' ::
        ("ns:us-east-1:123456789012:".toList ++ t) := rfl
  have h2 : ctPrefix =
      'a' :: 'r' :: 'n' :: ':' :: 'a' :: 'w' :: 's' :: ':' :: 'c' ::
        "loudtrail:us-east-1:123456789012:trail/".toList := rfl
  rw [h1, h2]
  simp only [startsWith_cons_same]
  exact startsWith_cons_ne _ _ (by decide)

theorem startsWith_sns_of_snsColon_append (t : Str) :
    startsWith (snsPrefixColon ++ t) snsPrefix = true := by
  have h : snsPrefixColon ++ t = snsPrefix ++ (':' :: t) := rfl
  rw [h]
  exact startsWith_append_self snsPrefix (':' :: t)

/-- The CloudTrail branch of `fix`: for an identifier of the shape
`ctPrefix ++ name ++ '-' :: suffix` with `name` free of `'/'` and `'-'`,
`fix` returns `name`. -/
theorem fix_ct_branch (name suffix : Str) (hs : '/' ∉ name) (hd : '-' ∉ name) :
    fix (ctPrefix ++ (name ++ '-' :: suffix)) = name := by
  rw [fix, if_pos (startsWith_ct_of_ct_append (name ++ '-' :: suffix))]
  have hsplit : ctPrefix ++ (name ++ '-' :: suffix) =
      ctStem ++ '/' :: (name ++ '-' :: suffix) := rfl
  rw [hsplit, pySplit_append_sep _ (by decide)]
  have hidx : pyIdx1 (ctStem :: pySplit '/' (name ++ '-' :: suffix)) =
      pyIdx0 (pySplit '/' (name ++ '-' :: suffix)) := rfl
  rw [hidx, pyIdx0_pySplit '/' (name ++ '-' :: suffix),
    takeUntil_append_of_not_mem _ hs]
  have htw : takeUntil '/' ('-' :: suffix) = '-' :: takeUntil '/' suffix := by
    rw [takeUntil, if_neg (by decide)]
  rw [htw, pyIdx0_pySplit '-' _, takeUntil_append_of_not_mem _ hd]
  simp [takeUntil]

/-- The SNS branch of `fix`: for an identifier of the shape
`snsPrefixColon ++ name` with `name` free of `':'`, `fix` returns `name`. -/
theorem fix_sns_branch (name : Str) (h : ':' ∉ name) :
    fix (snsPrefixColon ++ name) = name := by
  rw [fix, if_neg (by rw [not_startsWith_ct_of_sns]; exact Bool.false_ne_true),
    if_pos (startsWith_sns_of_snsColon_append name)]
  have hsplit : snsPrefixColon ++ name = snsPrefix ++ ':' :: name := rfl
  rw [hsplit]
  exact pyLast_pySplit_append snsPrefix h

/-! ### The response loop: what is yielded -/

/-- Soundness of the three skip tests: every yielded finding has a
non-`SUCCESS` status, a risk level outside `excludeLevels` and a rule id
outside `excludeRules`. -/
theorem scanItems_mem (lv rl : List Str) (source : Node) (items : List Item) :
    ∀ f ∈ (scanItems lv rl source items).1,
      f.status ≠ SUCCESS ∧ f.risk_level ∉ lv ∧ f.rule_id ∉ rl := by
  induction items with
  | nil => intro f hf; simp [scanItems] at hf
  | cons item rest ih =>
    intro f hf
    rw [scanItems] at hf
    cases hln : lineNumber (fix item.attributes.resource) source with
    | error e => rw [hln] at hf; simp at hf
    | ok ln =>
      rw [hln] at hf
      simp only [] at hf
      by_cases h1 : (mkFinding item ln).status = SUCCESS
      · rw [if_pos h1] at hf; exact ih f hf
      · rw [if_neg h1] at hf
        by_cases h2 : (mkFinding item ln).risk_level ∈ lv
        · rw [if_pos h2] at hf; exact ih f hf
        · rw [if_neg h2] at hf
          by_cases h3 : (mkFinding item ln).rule_id ∈ rl
          · rw [if_pos h3] at hf; exact ih f hf
          · rw [if_neg h3] at hf
            rcases List.mem_cons.mp hf with rfl | hmem
            · exact ⟨h1, h2, h3⟩
            · exact ih f hmem

/-- Completeness: when the loop raised no exception, every item that passes
the three skip tests appears in the yielded findings (with the line number
its `_line_number` call returned). -/
theorem scanItems_complete (lv rl : List Str) (source : Node) (items : List Item) :
    (scanItems lv rl source items).2 = none →
    ∀ item ∈ items, item.attributes.status ≠ SUCCESS →
      item.attributes.riskLevel ∉ lv → item.ruleId ∉ rl →
      ∃ ln, lineNumber (fix item.attributes.resource) source = .ok ln ∧
        mkFinding item ln ∈ (scanItems lv rl source items).1 := by
  induction items with
  | nil => intro _ item h; simp at h
  | cons hd rest ih =>
    intro hok item hmem hstatus hrisk hrule
    rw [scanItems] at hok ⊢
    cases hln : lineNumber (fix hd.attributes.resource) source with
    | error e => rw [hln] at hok; simp at hok
    | ok ln =>
      rw [hln] at hok
      simp only [] at hok ⊢
      rcases List.mem_cons.mp hmem with rfl | hmem'
      · have h1 : ¬ (mkFinding item ln).status = SUCCESS := hstatus
        have h2 : (mkFinding item ln).risk_level ∉ lv := hrisk
        have h3 : (mkFinding item ln).rule_id ∉ rl := hrule
        rw [if_neg h1, if_neg h2, if_neg h3] at hok ⊢
        exact ⟨ln, hln, List.mem_cons_self _ _⟩
      · by_cases h1 : (mkFinding hd ln).status = SUCCESS
        · rw [if_pos h1] at hok ⊢
          exact ih hok item hmem' hstatus hrisk hrule
        · rw [if_neg h1] at hok ⊢
          by_cases h2 : (mkFinding hd ln).risk_level ∈ lv
          · rw [if_pos h2] at hok ⊢
            exact ih hok item hmem' hstatus hrisk hrule
          · rw [if_neg h2] at hok ⊢
            by_cases h3 : (mkFinding hd ln).rule_id ∈ rl
            · rw [if_pos h3] at hok ⊢
              exact ih hok item hmem' hstatus hrisk hrule
            · rw [if_neg h3] at hok ⊢
              obtain ⟨ln', hln', hmem''⟩ := ih hok item hmem' hstatus hrisk hrule
              exact ⟨ln', hln', List.mem_cons_of_mem _ hmem''⟩

/-! ## Claim C1 -/

/-- C1 as stated is false: the identifier
`arn:aws:cloudtrail:us-east-1:123456789012:trail/a/b-c` matches the
CloudTrail pattern, its `NAME` ("the substring between the `'/'` and the
first `'-'`") is `a/b`, but `_fix` splits on every `'/'` and returns only
`a`. -/
theorem fix_ct_name_counterexample :
    ctPatternMatches ctSlashId ∧ specCtName ctSlashId = "a/b".toList ∧
      fix ctSlashId = "a".toList ∧ fix ctSlashId ≠ specCtName ctSlashId :=
  ⟨by decide, by decide, by decide, by decide⟩

/-- C1 (amended): for CloudTrail identifiers
`arn:aws:cloudtrail:us-east-1:123456789012:trail/NAME-suffix` whose `NAME`
contains neither `'/'` nor `'-'`, normalization returns exactly `NAME`;
for SNS identifiers `arn:aws:sns:us-east-1:123456789012:NAME` with `NAME`
the substring after the last `':'`, normalization returns exactly `NAME`. -/
theorem fix_normalizes_patterns :
    (∀ name suffix : Str, '/' ∉ name → '-' ∉ name →
      fix (ctPrefix ++ (name ++ '-' :: suffix)) = name) ∧
    ∀ name : Str, ':' ∉ name → fix (snsPrefixColon ++ name) = name :=
  ⟨fix_ct_branch, fix_sns_branch⟩

theorem fix_normalizes_patterns_witness :
    fix (ctPrefix ++ ("MyTrail".toList ++ '-' :: "ABCDEF".toList)) = "MyTrail".toList ∧
    fix (snsPrefixColon ++ "MyTopic".toList) = "MyTopic".toList :=
  ⟨fix_normalizes_patterns.1 ("MyTrail".toList) ("ABCDEF".toList) (by decide) (by decide),
   fix_normalizes_patterns.2 ("MyTopic".toList) (by decide)⟩

/-! ## Claim C2 -/

/-- C2 as stated is false: the identifier
`arn:aws:cloudtrail:us-east-1:123456789012:trail/MyTrail` matches neither
pattern (no `'-'` follows the slash, and it has the wrong service for
SNS), yet `_fix` rewrites it to `MyTrail` because `_fix` tests only the
prefix, not the full pattern. -/
theorem fix_passthrough_counterexample :
    ¬ ctPatternMatches ctNoDashId ∧ ¬ snsPatternMatches ctNoDashId ∧
      fix ctNoDashId ≠ ctNoDashId :=
  ⟨by decide, by decide, by decide⟩

/-- C2 (amended): every identifier that starts with neither the CloudTrail
prefix `arn:aws:cloudtrail:us-east-1:123456789012:trail/` nor the SNS
prefix `arn:aws:sns:us-east-1:123456789012` is returned unchanged. -/
theorem fix_passthrough_amended :
    ∀ r : Str, startsWith r ctPrefix = false → startsWith r snsPrefix = false →
      fix r = r := by
  intro r h1 h2
  rw [fix, if_neg (by simp [h1]), if_neg (by simp [h2])]

theorem fix_passthrough_amended_witness :
    fix ("MyBucket".toList) = "MyBucket".toList :=
  fix_passthrough_amended ("MyBucket".toList) (by decide) (by decide)

/-! ## Claim C3 -/

/-- C3: no result item with status `SUCCESS` is ever yielded by
`scan_template`, whatever the exclusion lists are. -/
theorem scan_never_yields_success :
    ∀ (excludeLevels excludeRules : List Str) (source : Node) (items : List Item),
      ∀ f ∈ (scanItems excludeLevels excludeRules source items).1, f.status ≠ SUCCESS :=
  fun lv rl source items f hf => (scanItems_mem lv rl source items f hf).1

theorem scan_never_yields_success_witness :
    mkFinding demoItem (some 5) ∈ (scanItems [] [] demoSource [demoItem]).1 ∧
    (mkFinding demoItem (some 5)).status ≠ SUCCESS :=
  ⟨by decide,
   scan_never_yields_success [] [] demoSource [demoItem] (mkFinding demoItem (some 5))
     (by decide)⟩

/-! ## Claim C4 -/

/-- C4: a result item whose risk level is in `exclude_levels` or whose
rule id is in `exclude_rules` is never yielded, and (when the response
loop finished without raising) every non-`SUCCESS` item in neither
exclusion set is yielded. -/
theorem scan_exclusions :
    ∀ (lv rl : List Str) (source : Node) (items : List Item),
      (∀ f ∈ (scanItems lv rl source items).1, f.risk_level ∉ lv ∧ f.rule_id ∉ rl) ∧
      ((scanItems lv rl source items).2 = none →
        ∀ item ∈ items, item.attributes.status ≠ SUCCESS →
          item.attributes.riskLevel ∉ lv → item.ruleId ∉ rl →
          ∃ ln, lineNumber (fix item.attributes.resource) source = .ok ln ∧
            mkFinding item ln ∈ (scanItems lv rl source items).1) :=
  fun lv rl source items =>
    ⟨fun f hf => (scanItems_mem lv rl source items f hf).2,
     scanItems_complete lv rl source items⟩

/-- The spec's scenario: excluding level `LOW`, of one `LOW` and one
`HIGH` item only the `HIGH` one is yielded. -/
theorem scan_exclusions_witness :
    ((mkFinding demoItem (some 5)).risk_level ∉ ["LOW".toList] ∧
      (mkFinding demoItem (some 5)).rule_id ∉ ([] : List Str)) ∧
    (∃ ln, lineNumber (fix demoItem.attributes.resource) demoSource = .ok ln ∧
      mkFinding demoItem ln ∈
        (scanItems ["LOW".toList] [] demoSource [demoLowItem, demoItem]).1) :=
  ⟨(scan_exclusions ["LOW".toList] [] demoSource [demoLowItem, demoItem]).1
     (mkFinding demoItem (some 5)) (by decide),
   (scan_exclusions ["LOW".toList] [] demoSource [demoLowItem, demoItem]).2
     (by decide) demoItem (by decide) (by decide) (by decide) (by decide)⟩

/-! ## Claim C6 -/

/-- C6: when the (mapping) document has no `Resources` key, or its
`Resources` mapping lacks the resource name, `_line_number` returns
`None` (no error), and `scan_template` still yields the corresponding
finding, with an absent line number. -/
theorem scan_missing_resource :
    ∀ (resource : Str) (line : Nat) (entries : List (Str × Node)),
      (lookup entries resourcesKey = none ∨
        ∃ rline rentries, lookup entries resourcesKey = some (.map rline rentries) ∧
          lookup rentries resource = none) →
      lineNumber resource (.map line entries) = .ok none ∧
      ∀ (lv rl : List Str) (items : List Item) (item : Item),
        (scanItems lv rl (.map line entries) items).2 = none →
        item ∈ items → fix item.attributes.resource = resource →
        item.attributes.status ≠ SUCCESS →
        item.attributes.riskLevel ∉ lv → item.ruleId ∉ rl →
        mkFinding item none ∈ (scanItems lv rl (.map line entries) items).1 := by
  intro resource line entries hmiss
  have hline : lineNumber resource (.map line entries) = .ok none := by
    rcases hmiss with h | ⟨rline, rentries, h1, h2⟩
    · simp [lineNumber, h]
    · simp [lineNumber, h1, h2]
  refine ⟨hline, ?_⟩
  intro lv rl items item hok hmem hfix hstatus hrisk hrule
  obtain ⟨ln, hln, hmemf⟩ :=
    scanItems_complete lv rl (.map line entries) items hok item hmem hstatus hrisk hrule
  rw [hfix, hline] at hln
  obtain rfl : (none : Option Nat) = ln := by injection hln
  exact hmemf

theorem scan_missing_resource_witness :
    lineNumber ("Ghost".toList) (.map 0 demoEntries) = .ok none ∧
    mkFinding ghostItem none ∈ (scanItems [] [] (.map 0 demoEntries) [ghostItem]).1 :=
  have h := scan_missing_resource ("Ghost".toList) 0 demoEntries
    (Or.inr ⟨1, [("MyBucket".toList, Node.map 5 [])], rfl, rfl⟩)
  ⟨h.1, h.2 [] [] [ghostItem] ghostItem rfl (by decide) (by decide) (by decide) (by decide) (by decide)⟩

/-! ## Claim C10 -/

/-- C10: the `None` fallback of `_line_number` comes only from the two
caught `KeyError` cases; a resource present under `Resources` with a
plain scalar value raises an uncaught `AttributeError` (no `.lc`), and a
document that is not a mapping raises an uncaught `TypeError`. -/
theorem line_number_uncaught :
    (∀ (resource : Str) (source : Node), lineNumber resource source = .ok none →
      ∃ line entries, source = .map line entries ∧
        (lookup entries resourcesKey = none ∨
          ∃ rline rentries, lookup entries resourcesKey = some (.map rline rentries) ∧
            lookup rentries resource = none)) ∧
    (∀ (resource : Str) (line : Nat) (entries : List (Str × Node))
        (rline : Nat) (rentries : List (Str × Node)),
      lookup entries resourcesKey = some (.map rline rentries) →
      lookup rentries resource = some .scalar →
      lineNumber resource (.map line entries) = .error .attributeError) ∧
    (∀ resource : Str, lineNumber resource .scalar = .error .typeError) ∧
    (∀ (resource : Str) (line : Nat), lineNumber resource (.seq line) = .error .typeError) := by
  refine ⟨?_, ?_, fun _ => rfl, fun _ _ => rfl⟩
  · intro resource source h
    cases source with
    | scalar => simp [lineNumber] at h
    | seq l => simp [lineNumber] at h
    | map line entries =>
      refine ⟨line, entries, rfl, ?_⟩
      rw [lineNumber] at h
      cases hres : lookup entries resourcesKey with
      | none => exact Or.inl rfl
      | some node =>
        rw [hres] at h
        cases node with
        | scalar => simp at h
        | seq l => simp at h
        | map rline rentries =>
          cases hr2 : lookup rentries resource with
          | none => exact Or.inr ⟨rline, rentries, rfl, hr2⟩
          | some node2 =>
            simp only [] at h
            rw [hr2] at h
            cases node2 <;> simp at h
  · intro resource line entries rline rentries h1 h2
    simp [lineNumber, h1, h2]

theorem line_number_uncaught_witness :
    (∃ line entries, demoSource = Node.map line entries ∧
      (lookup entries resourcesKey = none ∨
        ∃ rline rentries, lookup entries resourcesKey = some (.map rline rentries) ∧
          lookup rentries ("Ghost".toList) = none)) ∧
    lineNumber ("Plain".toList) (.map 0 scalarEntries) = .error .attributeError :=
  ⟨line_number_uncaught.1 ("Ghost".toList) demoSource rfl,
   line_number_uncaught.2.1 ("Plain".toList) 0 scalarEntries 1
     [("Plain".toList, Node.scalar)] rfl rfl⟩

/-! ## Claim C5 -/

/-- The `assert` of `_data` fires exactly when both ids are set. -/
theorem dataBody_error (c : Str) (a p : Option Str) (ha : a ≠ none) (hp : p ≠ none) :
    dataBody c a p = .error () := by
  rw [dataBody.eq_def, if_neg (fun h => h.elim ha hp)]

/-- C5: when the resolved account id and profile id (after per-call
overrides) are both set, the body of `scan_template` stops with the
`AssertionError` of `_data`: nothing is yielded and the POST is never
reached. -/
theorem scan_both_ids_rejected :
    ∀ (parse : Str → Except Unit Node) (responseItems : List Item)
      (sa sp oa op : Option Str) (lv rl : List Str) (t : Str) (source : Node),
      parse t = .ok source →
      resolveOverride oa sa ≠ none → resolveOverride op sp ≠ none →
      scanTemplate parse responseItems sa sp oa op lv rl t =
        ⟨false, [], some .assertionError⟩ := by
  intro parse responseItems sa sp oa op lv rl t source hparse ha hp
  simp only [scanTemplate]
  rw [hparse]
  simp only []
  rw [dataBody_error t _ _ ha hp]

theorem scan_both_ids_rejected_witness :
    scanTemplate (fun _ => .ok (.map 0 [])) [] none none
      (some ("111122223333".toList)) (some ("prof-1".toList)) [] [] [] =
      ⟨false, [], some .assertionError⟩ :=
  scan_both_ids_rejected _ [] none none (some ("111122223333".toList))
    (some ("prof-1".toList)) [] [] [] (.map 0 []) rfl (by decide) (by decide)

/-! ## Claim C7 -/

/-- C7: an unparsable template stops the body of `scan_template` before
anything else happens (no POST, nothing yielded), and the POST is reached
only when parsing succeeded. -/
theorem scan_unparsable_template :
    (∀ (parse : Str → Except Unit Node) (responseItems : List Item)
        (sa sp oa op : Option Str) (lv rl : List Str) (t : Str),
      parse t = .error () →
      scanTemplate parse responseItems sa sp oa op lv rl t =
        ⟨false, [], some .yamlError⟩) ∧
    ∀ (parse : Str → Except Unit Node) (responseItems : List Item)
        (sa sp oa op : Option Str) (lv rl : List Str) (t : Str),
      (scanTemplate parse responseItems sa sp oa op lv rl t).posted = true →
      ∃ source, parse t = .ok source := by
  constructor
  · intro parse responseItems sa sp oa op lv rl t hparse
    simp only [scanTemplate]
    rw [hparse]
  · intro parse responseItems sa sp oa op lv rl t hposted
    cases hparse : parse t with
    | ok source => exact ⟨source, rfl⟩
    | error e =>
      simp only [scanTemplate] at hposted
      rw [hparse] at hposted
      simp at hposted

theorem scan_unparsable_template_witness :
    scanTemplate (fun _ => .error ()) [] none none none none [] [] [] =
      ⟨false, [], some .yamlError⟩ :=
  scan_unparsable_template.1 (fun _ => .error ()) [] none none none none [] [] [] rfl

/-! ## Claim C8 -/

/-- C8: for every valid combination (at most one of account id and
profile id set), `_data` builds exactly
`{data: {attributes: {type, contents}}}`, with an `accountId` key iff an
account id was supplied, a `profileId` key iff a profile id was supplied,
and no other attribute keys. -/
theorem request_body_shape :
    ∀ (contents : Str) (accountId profileId : Option Str),
      accountId = none ∨ profileId = none →
      ∃ attrs, dataBody contents accountId profileId =
          .ok (.obj [(dataKey, .obj [(attributesKey, .obj attrs)])]) ∧
        lookup attrs typeKey = some (.str cloudformationTemplate) ∧
        lookup attrs contentsKey = some (.str contents) ∧
        lookup attrs accountIdKey = accountId.map .str ∧
        lookup attrs profileIdKey = profileId.map .str ∧
        attrs.map Prod.fst = [typeKey, contentsKey]
          ++ (if accountId.isSome then [accountIdKey] else [])
          ++ (if profileId.isSome then [profileIdKey] else []) := by
  intro contents accountId profileId h
  rcases accountId with _ | a
  · rcases profileId with _ | p
    · exact ⟨[(typeKey, .str cloudformationTemplate), (contentsKey, .str contents)],
        rfl, rfl, rfl, rfl, rfl, rfl⟩
    · exact ⟨[(typeKey, .str cloudformationTemplate), (contentsKey, .str contents),
        (profileIdKey, .str p)], rfl, rfl, rfl, rfl, rfl, rfl⟩
  · rcases profileId with _ | p
    · exact ⟨[(typeKey, .str cloudformationTemplate), (contentsKey, .str contents),
        (accountIdKey, .str a)], rfl, rfl, rfl, rfl, rfl, rfl⟩
    · rcases h with h | h <;> cases h

theorem request_body_shape_witness :
    ∃ attrs, dataBody ("T".toList) (some ("111122223333".toList)) none =
        .ok (.obj [(dataKey, .obj [(attributesKey, .obj attrs)])]) ∧
      lookup attrs typeKey = some (.str cloudformationTemplate) ∧
      lookup attrs contentsKey = some (.str ("T".toList)) ∧
      lookup attrs accountIdKey = (some ("111122223333".toList)).map Json.str ∧
      lookup attrs profileIdKey = (none : Option Str).map Json.str ∧
      attrs.map Prod.fst = [typeKey, contentsKey]
        ++ (if (some ("111122223333".toList)).isSome then [accountIdKey] else [])
        ++ (if (none : Option Str).isSome then [profileIdKey] else []) :=
  request_body_shape ("T".toList) (some ("111122223333".toList)) none (Or.inr rfl)

/-! ## Claim C9 -/

theorem sortFindings_pairwise (g : List Finding) :
    (sortFindings g).Pairwise fun a b => lineKey a ≤ lineKey b := by
  have htrans : ∀ a b c : Finding, decide (lineKey a ≤ lineKey b) →
      decide (lineKey b ≤ lineKey c) → decide (lineKey a ≤ lineKey c) := by
    intro a b c hab hbc
    exact decide_eq_true (le_trans (of_decide_eq_true hab) (of_decide_eq_true hbc))
  have htot : ∀ a b : Finding,
      decide (lineKey a ≤ lineKey b) || decide (lineKey b ≤ lineKey a) := by
    intro a b
    rcases le_total (lineKey a) (lineKey b) with h | h <;> simp [h]
  exact (List.sorted_mergeSort htrans htot g).imp of_decide_eq_true

theorem sortFindings_perm (g : List Finding) : (sortFindings g).Perm g :=
  List.mergeSort_perm g _

theorem map_fst_reportGroups (fs : List Finding) :
    (reportGroups fs).map Prod.fst =
      RISK_LEVELS.filter fun lvl => !(fs.filter fun f => f.risk_level = lvl).isEmpty := by
  simp only [reportGroups]
  generalize RISK_LEVELS = L
  induction L with
  | nil => rfl
  | cons lvl rest ih =>
    rw [List.filterMap_cons, List.filter_cons]
    by_cases h : (fs.filter fun f => f.risk_level = lvl).isEmpty = true
    · rw [if_pos h, h, Bool.not_true, if_neg Bool.false_ne_true]
      simp only []
      exact ih
    · have hb : (fs.filter fun f => f.risk_level = lvl).isEmpty = false := by
        revert h
        cases (fs.filter fun f => f.risk_level = lvl).isEmpty <;> simp
      rw [if_neg h, hb, Bool.not_false, if_pos rfl]
      simp only [List.map_cons]
      exact congrArg (List.cons lvl) ih

theorem mem_reportGroups {fs : List Finding} {p : Str × List Finding}
    (hp : p ∈ reportGroups fs) :
    p.1 ∈ RISK_LEVELS ∧ (fs.filter fun f => f.risk_level = p.1) ≠ [] ∧
      p.2 = sortFindings (fs.filter fun f => f.risk_level = p.1) := by
  simp only [reportGroups] at hp
  obtain ⟨lvl, hlvl, hsome⟩ := List.mem_filterMap.mp hp
  by_cases h : (fs.filter fun f => f.risk_level = lvl).isEmpty = true
  · rw [if_pos h] at hsome; cases hsome
  · rw [if_neg h] at hsome
    obtain rfl := Option.some.inj hsome
    refine ⟨hlvl, ?_, rfl⟩
    exact fun hnil => h (by rw [hnil]; rfl)

theorem reportGroups_nil_iff {fs : List Finding}
    (hall : ∀ f ∈ fs, f.risk_level ∈ RISK_LEVELS) :
    reportGroups fs = [] ↔ fs = [] := by
  constructor
  · intro h
    cases hfs : fs with
    | nil => rfl
    | cons f rest =>
      exfalso
      subst hfs
      have hmap := map_fst_reportGroups (f :: rest)
      rw [h] at hmap
      have hmem : f.risk_level ∈ RISK_LEVELS := hall f (List.mem_cons_self f rest)
      have hnil := List.filter_eq_nil_iff.mp hmap.symm _ hmem
      apply hnil
      cases hfil : (f :: rest).filter fun x => x.risk_level = f.risk_level with
      | nil =>
        have hfmem : f ∈ (f :: rest).filter fun x => x.risk_level = f.risk_level :=
          List.mem_filter.mpr ⟨List.mem_cons_self f rest, by simp⟩
        rw [hfil] at hfmem
        cases hfmem
      | cons a b => rfl
  · intro h; subst h; rfl

/-- C9: the printed groups follow the fixed severity order (`EXTREME`,
`VERY_HIGH`, `HIGH`, `MEDIUM`, `LOW`, exactly the non-empty levels);
within a group the findings are the findings of that level sorted by line
number, with absent line numbers first; and the exit status is non-zero
iff at least one finding survived filtering. -/
theorem cli_report_properties :
    ∀ (fs : List Finding) (gs : List (Str × List Finding)) (code : Nat),
      mainReport fs = .ok (gs, code) →
      gs.map Prod.fst =
        (RISK_LEVELS.filter fun lvl => !(fs.filter fun f => f.risk_level = lvl).isEmpty) ∧
      (∀ p ∈ gs,
        p.2.Pairwise (fun a b => lineKey a ≤ lineKey b) ∧
        p.2.Perm (fs.filter fun f => f.risk_level = p.1) ∧
        ∀ i j : Fin p.2.length, i < j → (p.2.get j).line_number = none →
          (p.2.get i).line_number = none) ∧
      (code ≠ 0 ↔ fs ≠ []) := by
  intro fs gs code h
  simp only [mainReport] at h
  by_cases hall : ∀ f ∈ fs, f.risk_level ∈ RISK_LEVELS
  case neg => rw [if_neg hall] at h; cases h
  case pos =>
  rw [if_pos hall] at h
  have hinj := Except.ok.inj h
  rw [Prod.mk.injEq] at hinj
  obtain ⟨h1, h2⟩ := hinj
  subst h1
  subst h2
  refine ⟨map_fst_reportGroups fs, ?_, ?_⟩
  · intro p hp
    obtain ⟨hlvl, hne, hpsnd⟩ := mem_reportGroups hp
    have hpw : p.2.Pairwise fun a b => lineKey a ≤ lineKey b := by
      rw [hpsnd]; exact sortFindings_pairwise _
    have hperm : p.2.Perm (fs.filter fun f => f.risk_level = p.1) := by
      rw [hpsnd]; exact sortFindings_perm _
    refine ⟨hpw, hperm, ?_⟩
    intro i j hij hjnone
    have hR := List.pairwise_iff_get.mp hpw i j hij
    cases hgi : (p.2.get i).line_number with
    | none => rfl
    | some n =>
      exfalso
      rw [show lineKey (p.2.get j) = -1 by simp only [lineKey, hjnone]] at hR
      rw [show lineKey (p.2.get i) = (n : Int) by simp only [lineKey, hgi]] at hR
      omega
  · constructor
    · intro hcode hfs
      apply hcode
      subst hfs
      rfl
    · intro hfs
      have hne : reportGroups fs ≠ [] := fun hnil => hfs ((reportGroups_nil_iff hall).mp hnil)
      rw [if_neg (by simpa using hne)]
      exact one_ne_zero

theorem cli_report_properties_witness :
    mainReport [demoLow] = .ok ([("LOW".toList, [demoLow])], 1) ∧
      ((1 : Nat) ≠ 0 ↔ ([demoLow] : List Finding) ≠ []) := by
  have e1 : ([demoLow].filter fun f => f.risk_level = "EXTREME".toList).isEmpty = true := by decide
  have e2 : ([demoLow].filter fun f => f.risk_level = "VERY_HIGH".toList).isEmpty = true := by decide
  have e3 : ([demoLow].filter fun f => f.risk_level = "HIGH".toList).isEmpty = true := by decide
  have e4 : ([demoLow].filter fun f => f.risk_level = "MEDIUM".toList).isEmpty = true := by decide
  have e5 : ([demoLow].filter fun f => f.risk_level = "LOW".toList).isEmpty = false := by decide
  have e5' : ([demoLow].filter fun f => f.risk_level = "LOW".toList) = [demoLow] := by decide
  have hsort : sortFindings ([demoLow].filter fun f => f.risk_level = "LOW".toList) = [demoLow] := by
    rw [e5']
    exact List.mergeSort_singleton demoLow
  have hgroups : reportGroups [demoLow] = [("LOW".toList, [demoLow])] := by
    simp only [reportGroups, RISK_LEVELS, List.filterMap_cons]
    rw [if_pos e1]
    simp only []
    rw [if_pos e2]
    simp only []
    rw [if_pos e3]
    simp only []
    rw [if_pos e4]
    simp only []
    rw [if_neg (by rw [e5]; exact Bool.false_ne_true), hsort]
    rfl
  have hcond : ∀ f ∈ [demoLow], f.risk_level ∈ RISK_LEVELS := by decide
  have hmain : mainReport [demoLow] = .ok ([("LOW".toList, [demoLow])], 1) := by
    simp only [mainReport]
    rw [if_pos hcond, hgroups]
    rfl
  exact ⟨hmain, (cli_report_properties [demoLow] [("LOW".toList, [demoLow])] 1 hmain).2.2⟩

end CCScanner
